import Mathlib

/-!
# Verification of the timm adapter layer and dummy-object fallback

Shallow embedding of `src/optimum/intel/openvino/modeling_timm.py` and
`src/optimum/intel/utils/dummy_openvino_and_diffusers_objects.py`.

Python values appearing in registry config mappings are modelled by `PVal`,
Python exceptions by the kind-level inductive `PyErr`, torch tensors by a
shape/data/dtype record over rationals, and numpy image arrays by nested
lists of rationals.  External collaborator routines (the transformers image
helpers, the torch loss functions, the spatial interpolation performed by
PIL) are embedded at the level of detail the specification fixes for them;
each such embedding says so in its doc comment.
-/

/-- Kinds of Python exceptions raised by the embedded code.  Only the kind is
tracked, not the message.  `missingBackends` carries the backend names listed
in a dependency-missing `ImportError`. -/
inductive PyErr where
  | keyError
  | indexError
  | typeError
  | valueError
  | attributeError
  | runtimeError
  | missingBackends (names : List String)
deriving DecidableEq, Repr

/-- `LookupError` in Python is the common superclass of `KeyError` and
`IndexError`. -/
def PyErr.isLookup : PyErr → Bool
  | .keyError => true
  | .indexError => true
  | _ => false

/-- Python scalar / list values stored in a registry config mapping.
Floats are represented exactly by the rational value of their source
literal. -/
inductive PVal where
  | pyNone
  | pyBool (b : Bool)
  | pyInt (n : ℤ)
  | pyRat (q : ℚ)
  | pyStr (s : String)
  | pyList (xs : List PVal)

/-- A Python `dict` with string keys, as an association list.  Lookup takes
the first matching entry. -/
def PyDict : Type := List (String × PVal)

/-- `d.get(k)` / `d[k]` lookup. -/
def dictGet (d : PyDict) (k : String) : Option PVal :=
  List.lookup k d

/-- Remove every entry for key `k`. -/
def dictErase (d : PyDict) (k : String) : PyDict :=
  List.filter (fun p => p.1 ≠ k) d

/-- `d[k] = v` assignment: the key's entries are replaced, other entries keep
their relative order.  (Only lookup-level facts are used, so placing the new
entry at the front is an adequate model of Python's in-place update.) -/
def dictSet (d : PyDict) (k : String) (v : PVal) : PyDict :=
  (k, v) :: dictErase d k

/-- `d.pop(k)`: raises `KeyError` when the key is absent. -/
def dictPop (d : PyDict) (k : String) : Except PyErr (PVal × PyDict) :=
  match dictGet d k with
  | none => .error .keyError
  | some v => .ok (v, dictErase d k)

/-- Python subscript `x[-1]` applied to the result of `d.get(k)` (which is
`None` when the key is absent): `None[-1]` raises `TypeError`, `[][-1]`
raises `IndexError`, and a non-empty list yields its last element.  Registry
`input_size` values are lists; subscripting any other value kind is modelled
as the `TypeError` Python raises for non-subscriptable values. -/
def pySubscriptLast : Option PVal → Except PyErr PVal
  | none => .error .typeError
  | some (.pyList []) => .error .indexError
  | some (.pyList (x :: xs)) => .ok ((x :: xs).getLast (by simp))
  | some _ => .error .typeError

/-- `TimmConfig.from_pretrained`, lines 60-63: the translation of the raw
registry config mapping.  `config_dict["num_labels"] = config_dict.pop("num_classes")`
followed by `config_dict["image_size"] = config_dict.get("input_size")[-1]`.
The trailing `cls.from_dict(config_dict, **kwargs)` call is the external
generic-config constructor and is out of scope; the translated mapping is
the object of the claims. -/
def timmConfigTranslate (d : PyDict) : Except PyErr PyDict := do
  let (nc, d1) ← dictPop d "num_classes"
  let d2 := dictSet d1 "num_labels" nc
  let lastElem ← pySubscriptLast (dictGet d2 "input_size")
  return dictSet d2 "image_size" lastElem

theorem exceptBind_ok {ε α β : Type} (a : α) (f : α → Except ε β) :
    (Except.ok a : Except ε α) >>= f = f a := rfl

theorem exceptBind_error {ε α β : Type} (e : ε) (f : α → Except ε β) :
    (Except.error e : Except ε α) >>= f = .error e := rfl

theorem lookup_cons_self {β : Type} (k : String) (v : β) (l : List (String × β)) :
    List.lookup k ((k, v) :: l) = some v := by
  simp [List.lookup]

theorem lookup_cons_of_ne {β : Type} (a k : String) (v : β) (l : List (String × β))
    (h : a ≠ k) : List.lookup a ((k, v) :: l) = List.lookup a l := by
  simp [List.lookup, beq_false_of_ne h]

theorem dictGet_dictSet_same (d : PyDict) (k : String) (v : PVal) :
    dictGet (dictSet d k v) k = some v := by
  simp [dictGet, dictSet, List.lookup]

theorem dictGet_dictErase_ne (d : PyDict) (k k' : String) (h : k' ≠ k) :
    dictGet (dictErase d k) k' = dictGet d k' := by
  induction d with
  | nil => rfl
  | cons p rest ih =>
      rcases p with ⟨a, v⟩
      by_cases ha : a = k
      · subst ha
        have h1 : dictErase ((a, v) :: rest) a = dictErase rest a := by
          simp [dictErase]
        rw [show dictGet (dictErase ((a, v) :: rest) a) k' =
              dictGet (dictErase rest a) k' from congrArg (dictGet · k') h1]
        rw [ih]
        exact (lookup_cons_of_ne k' a v rest h).symm
      · have h1 : dictErase ((a, v) :: rest) k = (a, v) :: dictErase rest k := by
          simp [dictErase, ha]
        rw [show dictGet (dictErase ((a, v) :: rest) k) k' =
              dictGet ((a, v) :: dictErase rest k) k' from congrArg (dictGet · k') h1]
        by_cases hk' : k' = a
        · subst hk'
          exact (lookup_cons_self k' v (dictErase rest k)).trans
            (lookup_cons_self k' v rest).symm
        · rw [show dictGet ((a, v) :: dictErase rest k) k' =
                dictGet (dictErase rest k) k' from lookup_cons_of_ne k' a v _ hk']
          rw [ih]
          exact (lookup_cons_of_ne k' a v rest hk').symm

theorem dictGet_dictSet_ne (d : PyDict) (k k' : String) (v : PVal) (h : k' ≠ k) :
    dictGet (dictSet d k v) k' = dictGet d k' := by
  rw [show dictGet (dictSet d k v) k' = dictGet (dictErase d k) k' from
    lookup_cons_of_ne k' k v _ h]
  exact dictGet_dictErase_ne d k k' h

/-- Claim C3: for every registry config mapping containing `num_classes` and
`input_size = [C, H, W]`, the translated config mapping has `image_size`
equal to `W` (the last element of `input_size`), `num_labels` equal to the
raw config's `num_classes`, and every other key unchanged. -/
theorem claim_c3_config_translation (d : PyDict) (c h w nc : PVal)
    (hnc : dictGet d "num_classes" = some nc)
    (hisz : dictGet d "input_size" = some (.pyList [c, h, w])) :
    ∃ d2, timmConfigTranslate d = .ok d2 ∧
      dictGet d2 "num_labels" = some nc ∧
      dictGet d2 "image_size" = some w ∧
      ∀ k, k ≠ "num_classes" → k ≠ "num_labels" → k ≠ "image_size" →
        dictGet d2 k = dictGet d k := by
  have hpop : dictPop d "num_classes" = .ok (nc, dictErase d "num_classes") := by
    simp [dictPop, hnc]
  have hget : dictGet (dictSet (dictErase d "num_classes") "num_labels" nc) "input_size"
      = some (.pyList [c, h, w]) := by
    rw [dictGet_dictSet_ne _ _ _ _ (by decide), dictGet_dictErase_ne _ _ _ (by decide)]
    exact hisz
  have htrans : timmConfigTranslate d =
      .ok (dictSet (dictSet (dictErase d "num_classes") "num_labels" nc) "image_size" w) := by
    simp [timmConfigTranslate, hpop, hget, pySubscriptLast, List.getLast, exceptBind_ok]
  refine ⟨_, htrans, ?_, ?_, ?_⟩
  · rw [dictGet_dictSet_ne _ _ _ _ (by decide)]
    exact dictGet_dictSet_same _ _ _
  · exact dictGet_dictSet_same _ _ _
  · intro k hk1 hk2 hk3
    rw [dictGet_dictSet_ne _ _ _ _ hk3, dictGet_dictSet_ne _ _ _ _ hk2,
      dictGet_dictErase_ne _ _ _ hk1]

/-- Witness for C3 at a concrete registry mapping. -/
theorem claim_c3_config_translation_witness :
    dictGet [("num_classes", PVal.pyInt 1000), ("hf_hub_id", PVal.pyStr "resnet"),
        ("input_size", PVal.pyList [.pyInt 3, .pyInt 224, .pyInt 192])] "num_classes"
      = some (.pyInt 1000) ∧
    dictGet [("num_classes", PVal.pyInt 1000), ("hf_hub_id", PVal.pyStr "resnet"),
        ("input_size", PVal.pyList [.pyInt 3, .pyInt 224, .pyInt 192])] "input_size"
      = some (.pyList [.pyInt 3, .pyInt 224, .pyInt 192]) ∧
    ∃ d2, timmConfigTranslate [("num_classes", PVal.pyInt 1000),
        ("hf_hub_id", PVal.pyStr "resnet"),
        ("input_size", PVal.pyList [.pyInt 3, .pyInt 224, .pyInt 192])] = .ok d2 ∧
      dictGet d2 "num_labels" = some (.pyInt 1000) ∧
      dictGet d2 "image_size" = some (.pyInt 192) ∧
      ∀ k, k ≠ "num_classes" → k ≠ "num_labels" → k ≠ "image_size" →
        dictGet d2 k = dictGet [("num_classes", PVal.pyInt 1000),
          ("hf_hub_id", PVal.pyStr "resnet"),
          ("input_size", PVal.pyList [.pyInt 3, .pyInt 224, .pyInt 192])] k :=
  ⟨rfl, rfl, claim_c3_config_translation _ _ _ _ _ rfl rfl⟩

/-- Counterexample to C4 as stated: on the mapping with `num_classes` present
but `input_size` absent, the translation fails with a `TypeError` (Python
subscripts the `None` returned by `.get("input_size")`), which is not a
lookup error. -/
theorem claim_c4_counterexample :
    timmConfigTranslate [("num_classes", PVal.pyInt 2)] = .error .typeError ∧
    PyErr.typeError.isLookup = false :=
  ⟨rfl, rfl⟩

/-- Claim C4, amended: when `input_size` is absent the translation always
fails, but the exception kind depends on `num_classes`: if `num_classes` is
also absent, `d.pop("num_classes")` raises a `KeyError` (a lookup error)
first; if `num_classes` is present, subscripting `d.get("input_size")`
(which is `None`) raises a `TypeError`, not a lookup error. -/
theorem claim_c4_translation_failure (d : PyDict)
    (habs : dictGet d "input_size" = none) :
    (dictGet d "num_classes" = none → timmConfigTranslate d = .error .keyError) ∧
    ∀ v, dictGet d "num_classes" = some v → timmConfigTranslate d = .error .typeError := by
  constructor
  · intro hnc
    simp [timmConfigTranslate, dictPop, hnc, exceptBind_error]
  · intro v hnc
    have hpop : dictPop d "num_classes" = .ok (v, dictErase d "num_classes") := by
      simp [dictPop, hnc]
    have hget : dictGet (dictSet (dictErase d "num_classes") "num_labels" v) "input_size"
        = none := by
      rw [dictGet_dictSet_ne _ _ _ _ (by decide), dictGet_dictErase_ne _ _ _ (by decide)]
      exact habs
    simp [timmConfigTranslate, hpop, hget, pySubscriptLast, exceptBind_ok]

/-- Witness for the amended C4 at a concrete mapping lacking `input_size`. -/
theorem claim_c4_translation_failure_witness :
    dictGet [("num_classes", PVal.pyInt 7)] "input_size" = none ∧
    ((dictGet [("num_classes", PVal.pyInt 7)] "num_classes" = none →
        timmConfigTranslate [("num_classes", PVal.pyInt 7)] = .error .keyError) ∧
      ∀ v, dictGet [("num_classes", PVal.pyInt 7)] "num_classes" = some v →
        timmConfigTranslate [("num_classes", PVal.pyInt 7)] = .error .typeError) :=
  ⟨rfl, claim_c4_translation_failure _ rfl⟩

/-- torch dtypes relevant to the label-dtype test: `torch.long` is `int64`,
`torch.int` is `int32`; other integer widths and the float dtypes are kept
distinct because the source compares against exactly `torch.long` and
`torch.int`. -/
inductive DType where
  | float32
  | float64
  | int64
  | int32
  | int16
  | uint8
deriving DecidableEq, Repr

/-- A torch tensor: a shape, flat row-major data, and a dtype.  Element
values are exact rationals; the floating-point arithmetic performed inside
the torch loss kernels is external and is kept symbolic (see `LossVal`). -/
structure Tensor where
  shape : List ℕ
  data : List ℚ
  dtype : DType
deriving DecidableEq, Repr

/-- Number of elements. -/
def Tensor.numel (t : Tensor) : ℕ := t.shape.prod

/-- `t.squeeze()`: drop every axis of extent 1. -/
def Tensor.squeeze (t : Tensor) : Tensor :=
  { t with shape := t.shape.filter (fun n => n ≠ 1) }

/-- `t.view(-1)`: flatten to one axis. -/
def Tensor.view1 (t : Tensor) : Tensor :=
  { t with shape := [t.numel] }

/-- `t.view(-1, n)`: reshape to `(numel / n, n)`; torch raises a
`RuntimeError` when `n` is not a positive divisor of `numel`. -/
def Tensor.view2 (t : Tensor) (n : ℤ) : Except PyErr Tensor :=
  if 0 < n then
    let k := n.toNat
    if t.numel % k = 0 then
      .ok { t with shape := [t.numel / k, k] }
    else .error .runtimeError
  else .error .runtimeError

/-- The value `self.timm(...)` evaluates to in `TimmForImageClassification.forward`:
either the backbone's raw output tensor (`return_dict` false) or the
`BaseModelOutput` wrapper holding it as `last_hidden_state` (`return_dict`
true), exactly as built on lines 121-129 of the source. -/
inductive ModelOut where
  | raw (t : Tensor)
  | base (last_hidden_state : Tensor)
deriving DecidableEq, Repr

/-- Attribute access `x.last_hidden_state`: defined on the wrapper, an
`AttributeError` on a raw torch tensor. -/
def ModelOut.lastHiddenState : ModelOut → Except PyErr Tensor
  | .raw _ => .error .attributeError
  | .base t => .ok t

/-- The configuration state visible to the forward passes: `num_labels`,
the lazily-written `problem_type`, and `use_return_dict` (the generic
config's resolved `return_dict and not torchscript`, `True` by default). -/
structure TimmCfg where
  num_labels : ℤ
  problem_type : Option String
  use_return_dict : Bool
deriving DecidableEq, Repr

/-- `TimmModel.forward` (lines 105-129): resolves `return_dict` against the
config, raises `ValueError` when `pixel_values` is absent, applies the
wrapped timm backbone (an external collaborator, passed as a function), and
wraps the output in a `BaseModelOutput` exactly when `return_dict` holds. -/
def timmModelForward (backbone : Tensor → Tensor) (cfg : TimmCfg)
    (pixel_values : Option Tensor) (return_dict : Option Bool) :
    Except PyErr ModelOut :=
  let rd := return_dict.getD cfg.use_return_dict
  match pixel_values with
  | none => .error .valueError
  | some pv =>
      let model_output := backbone pv
      if rd then .ok (.base model_output) else .ok (.raw model_output)

/-- The problem-type string inferred on lines 169-174: `num_labels == 1`
gives regression; `num_labels > 1` with labels of dtype `torch.long` or
`torch.int` gives single-label classification; anything else gives
multi-label classification. -/
def inferProblem (num_labels : ℤ) (labelDtype : DType) : String :=
  if num_labels = 1 then "regression"
  else if 1 < num_labels ∧ (labelDtype = .int64 ∨ labelDtype = .int32) then
    "single_label_classification"
  else "multi_label_classification"

/-- A loss value, kept symbolic: the torch loss kernels (`MSELoss`,
`CrossEntropyLoss`, `BCEWithLogitsLoss`) are external collaborators, so the
loss is recorded as which kernel was applied to which (already reshaped)
arguments. -/
inductive LossVal where
  | mse (input target : Tensor)
  | crossEntropy (input target : Tensor)
  | bceWithLogits (input target : Tensor)
deriving DecidableEq, Repr

/-- The value returned by `TimmForImageClassification.forward`: line 190
returns the inner model's output object unchanged (`plain`), line 192-195
returns an `ImageClassifierOutput` holding the optional loss and the
unwrapped logits. -/
inductive ClsOut where
  | plain (out : ModelOut)
  | classifierOutput (loss : Option LossVal) (logits : Tensor)
deriving DecidableEq, Repr

/-- The loss selection of lines 176-187, evaluated when `labels` is given
and the inner output is the raw tensor `lt`.  A pre-set `problem_type`
outside the three known strings selects no loss branch and leaves the loss
`None`. -/
def selectLoss (problem_type : Option String) (num_labels : ℤ)
    (lt lab : Tensor) : Except PyErr (Option LossVal) :=
  if problem_type = some "regression" then
    if num_labels = 1 then .ok (some (.mse lt.squeeze lab.squeeze))
    else .ok (some (.mse lt lab))
  else if problem_type = some "single_label_classification" then do
    let a ← lt.view2 num_labels
    .ok (some (.crossEntropy a lab.view1))
  else if problem_type = some "multi_label_classification" then
    .ok (some (.bceWithLogits lt lab))
  else .ok none

/-- `TimmForImageClassification.forward` (lines 145-195).  The config is
threaded explicitly because line 168-174 may write `problem_type` onto it;
the returned config reflects the state after the call even when the call
raises.  Line 167 (`labels = labels.to(logits.device)`) reads
`logits.device`, so when the inner model returned a `BaseModelOutput`
wrapper (the `return_dict` path) the call raises `AttributeError` there,
before the inference and loss code.  Device placement itself is external
and `.to(device)` leaves the label values unchanged. -/
def timmClsForward (backbone : Tensor → Tensor) (cfg : TimmCfg)
    (pixel_values : Option Tensor) (labels : Option Tensor)
    (return_dict : Option Bool) : TimmCfg × Except PyErr ClsOut :=
  let rd := return_dict.getD cfg.use_return_dict
  match timmModelForward backbone cfg pixel_values (some rd) with
  | .error e => (cfg, .error e)
  | .ok logits =>
    match labels with
    | none =>
        if rd then
          match logits.lastHiddenState with
          | .error e => (cfg, .error e)
          | .ok lh => (cfg, .ok (.classifierOutput none lh))
        else (cfg, .ok (.plain logits))
    | some lab =>
        match logits with
        | .base _ => (cfg, .error .attributeError)
        | .raw lt =>
            let cfg2 :=
              if cfg.problem_type = none then
                { cfg with problem_type := some (inferProblem cfg.num_labels lab.dtype) }
              else cfg
            match selectLoss cfg2.problem_type cfg2.num_labels lt lab with
            | .error e => (cfg2, .error e)
            | .ok loss =>
              if rd then
                match (ModelOut.raw lt).lastHiddenState with
                | .error e => (cfg2, .error e)
                | .ok lh => (cfg2, .ok (.classifierOutput loss lh))
              else (cfg2, .ok (.plain (.raw lt)))

/-- On the tuple path (`return_dict=False`) the lazy inference of lines
168-174 does run: with `problem_type` unset it writes exactly
`inferProblem num_labels labels.dtype` onto the config. -/
theorem timmCls_inference_tuple_path (backbone : Tensor → Tensor) (cfg : TimmCfg)
    (pv lab : Tensor) (hpt : cfg.problem_type = none) :
    (timmClsForward backbone cfg (some pv) (some lab) (some false)).1
      = { cfg with problem_type := some (inferProblem cfg.num_labels lab.dtype) } := by
  simp only [timmClsForward, timmModelForward, Option.getD, if_neg]
  simp [hpt]
  split <;> rfl

/-- On the tuple path, a config whose `problem_type` is already set is
returned unchanged: subsequent calls reuse the cached value. -/
theorem timmCls_inference_cached (backbone : Tensor → Tensor) (cfg : TimmCfg)
    (pv lab : Tensor) (p : String) (hpt : cfg.problem_type = some p) :
    (timmClsForward backbone cfg (some pv) (some lab) (some false)).1 = cfg := by
  simp only [timmClsForward, timmModelForward, Option.getD]
  simp [hpt]
  split <;> rfl

/-- Claim C1 failing-input evaluation: on the default path
(`return_dict` unset, so `use_return_dict = True`) with labels given and
`problem_type` unset, `TimmForImageClassification.forward` raises an
`AttributeError` at `labels.to(logits.device)` — the inner `TimmModel`
returned a `BaseModelOutput` wrapper, not a tensor — before the inference
of lines 168-174 runs, so no problem type is inferred or written onto the
config. -/
theorem claim_c1_problem_type_not_inferred_on_default_path :
    timmClsForward (fun t => t) (TimmCfg.mk 1 none true)
        (some (Tensor.mk [1, 1] [2] .float32))
        (some (Tensor.mk [1] [1/2] .float32)) none
      = (TimmCfg.mk 1 none true, .error .attributeError) ∧
    (TimmCfg.mk 1 none true).problem_type = none :=
  ⟨rfl, rfl⟩

/-- Claim C2 failing-input evaluation.  With `pixel_values` and `labels`
both given: on the default path (`return_dict` unset, hence true) the
forward call raises `AttributeError` instead of returning a loss/logits
container; on the tuple path (`return_dict=False`) the loss is selected
(the problem type is even cached onto the config) but then discarded —
line 190 returns the bare logits, not a container.  Only when labels are
absent does the default path return the container, with an empty loss. -/
theorem claim_c2_loss_container_eval :
    timmClsForward (fun t => t) (TimmCfg.mk 5 none true)
        (some (Tensor.mk [1, 5] [1, 2, 3, 4, 5] .float32))
        (some (Tensor.mk [1] [3] .int64)) none
      = (TimmCfg.mk 5 none true, .error .attributeError) ∧
    timmClsForward (fun t => t) (TimmCfg.mk 5 none true)
        (some (Tensor.mk [1, 5] [1, 2, 3, 4, 5] .float32))
        (some (Tensor.mk [1] [3] .int64)) (some false)
      = (TimmCfg.mk 5 (some "single_label_classification") true,
          .ok (.plain (.raw (Tensor.mk [1, 5] [1, 2, 3, 4, 5] .float32)))) ∧
    timmClsForward (fun t => t) (TimmCfg.mk 5 none true)
        (some (Tensor.mk [1, 5] [1, 2, 3, 4, 5] .float32)) none none
      = (TimmCfg.mk 5 none true,
          .ok (.classifierOutput none (Tensor.mk [1, 5] [1, 2, 3, 4, 5] .float32))) :=
  ⟨rfl, rfl, rfl⟩

/-- Claim C8: `TimmModel.forward` with `pixel_values` absent fails with a
`ValueError` for every backbone, config and `return_dict` argument — the
result does not depend on the wrapped backbone, so nothing is delegated to
it. -/
theorem claim_c8_missing_pixel_values (backbone : Tensor → Tensor)
    (cfg : TimmCfg) (return_dict : Option Bool) :
    timmModelForward backbone cfg none return_dict = .error .valueError :=
  rfl

/-- Channel-dimension layouts: channels as the first or as the last axis. -/
inductive ChannelDim where
  | first
  | last
deriving DecidableEq, Repr

/-- A numpy image array: 2-D (grayscale, rows of pixels) or 3-D (nested
lists, outermost axis first).  Values are exact rationals. -/
inductive NpArr where
  | d2 (rows : List (List ℚ))
  | d3 (planes : List (List (List ℚ)))
deriving DecidableEq, Repr

/-- numpy transpose of the two outermost axes of a nested list, defined via
column extraction; on the rectangular arrays numpy produces it agrees with
`np.transpose`.  `d` is the padding default, never read on rectangular
input. -/
def npTranspose {α : Type} (d : α) (g : List (List α)) : List (List α) :=
  (List.range (g.headD []).length).map (fun j => g.map (fun r => r.getD j d))

/-- Axis permutation `(1, 2, 0)`: channels-first `(C, H, W)` to
channels-last `(H, W, C)`. -/
def chwToHwc (p : List (List (List ℚ))) : List (List (List ℚ)) :=
  (npTranspose [] p).map (npTranspose 0)

/-- Axis permutation `(2, 0, 1)`: channels-last `(H, W, C)` to
channels-first `(C, H, W)`. -/
def hwcToChw (p : List (List (List ℚ))) : List (List (List ℚ)) :=
  npTranspose [] (p.map (npTranspose 0))

/-- Extent of the innermost axis (by heads; rectangular arrays only). -/
def innerLen3 (p : List (List (List ℚ))) : ℕ :=
  ((p.headD []).headD []).length

/-- Embeds the external `infer_channel_dimension_format`: a 3-D array whose
first axis has extent 1 or 3 is channels-first; otherwise, if its last axis
has extent 1 or 3, channels-last; anything else (including 2-D input) is a
`ValueError`. -/
def inferChannelDim : NpArr → Except PyErr ChannelDim
  | .d2 _ => .error .valueError
  | .d3 p =>
      if p.length = 1 ∨ p.length = 3 then .ok .first
      else if innerLen3 p = 1 ∨ innerLen3 p = 3 then .ok .last
      else .error .valueError

/-- Embeds the external `to_channel_dimension_format`: infer the input
layout when not supplied, return the array unchanged when it already has
the target layout, transpose otherwise (numpy's 3-axis transpose on a 2-D
array is an axis error, a `ValueError`). -/
def toChannelDimensionFormat (target : ChannelDim) (inputDim : Option ChannelDim)
    (img : NpArr) : Except PyErr NpArr := do
  let idim ← match inputDim with
    | some d => pure d
    | none => inferChannelDim img
  if idim = target then return img
  else
    match img with
    | .d2 _ => .error .valueError
    | .d3 p =>
        match target with
        | .first => return (.d3 (hwcToChw p))
        | .last => return (.d3 (chwToHwc p))

/-- Elementwise map over an image array. -/
def mapArr (f : ℚ → ℚ) : NpArr → NpArr
  | .d2 g => .d2 (g.map (fun r => r.map f))
  | .d3 p => .d3 (p.map (fun g => g.map (fun r => r.map f)))

/-- Embeds the external `rescale` helper used by the inherited
`BaseImageProcessor.rescale`: multiply every element by the scale. -/
def rescaleArr (scale : ℚ) (a : NpArr) : NpArr :=
  mapArr (fun x => x * scale) a

/-- `(x - m) / s` over one channel plane. -/
def normChan (m s : ℚ) (g : List (List ℚ)) : List (List ℚ) :=
  g.map (fun r => r.map (fun x => (x - m) / s))

/-- Embeds the external `normalize` helper used by the inherited
`BaseImageProcessor.normalize`: infer the channel axis, require one
mean/std entry per channel (scalar mean/std are pre-broadcast to such a
list by the external helper), subtract and divide per channel.  Length
mismatch or failed layout inference is a `ValueError`. -/
def normalizeArr (mean std : List ℚ) : NpArr → Except PyErr NpArr
  | .d2 _ => .error .valueError
  | .d3 p => do
      let dim ← inferChannelDim (.d3 p)
      match dim with
      | .first =>
          if mean.length = p.length ∧ std.length = p.length then
            .ok (.d3 (List.zipWith (fun ms chan => normChan ms.1 ms.2 chan) (mean.zip std) p))
          else .error .valueError
      | .last =>
          if mean.length = innerLen3 p ∧ std.length = innerLen3 p then
            .ok (.d3 (p.map (fun row => row.map (fun pix =>
              List.zipWith (fun x ms => (x - ms.1) / ms.2) pix (mean.zip std)))))
          else .error .valueError

/-- A `size`-style dictionary: string keys with integer extents. -/
abbrev SizeDict : Type := List (String × ℕ)

def sdKeys (sd : SizeDict) : List String := sd.map Prod.fst

def sdHasKey (sd : SizeDict) (k : String) : Bool := (sdKeys sd).contains k

def sdGet (sd : SizeDict) (k : String) : Option ℕ := List.lookup k sd

/-- Two key lists describe the same key set. -/
def sameKeySet (a b : List String) : Bool :=
  a.all (fun x => b.contains x) && b.all (fun x => a.contains x)

/-- Embeds the external `get_size_dict` validation for dictionary input
(the only input kind the adapter passes): the key set must be one of
`{height, width}`, `{shortest_edge}`, `{shortest_edge, longest_edge}`,
`{longest_edge}`; anything else raises `ValueError`. -/
def isValidSizeDict (sd : SizeDict) : Bool :=
  sameKeySet (sdKeys sd) ["height", "width"] ||
  sameKeySet (sdKeys sd) ["shortest_edge"] ||
  sameKeySet (sdKeys sd) ["shortest_edge", "longest_edge"] ||
  sameKeySet (sdKeys sd) ["longest_edge"]

/-- Embeds the external `get_size_dict` on dictionary input. -/
def getSizeDict (sd : SizeDict) : Except PyErr SizeDict :=
  if isValidSizeDict sd then .ok sd else .error .valueError

/-- `np.stack([image] * 3, axis=-1)` on a 2-D image (line 321): each scalar
becomes the innermost 3-element axis. -/
def stackGray3 (rows : List (List ℚ)) : List (List (List ℚ)) :=
  rows.map (fun r => r.map (fun x => List.replicate 3 x))

/-- Embeds the external `transformers.image_transforms.resize`: the array is
handed to PIL channels-last (inferring the input layout), resized spatially
per channel by the interpolation kernel `interp` (which abstracts the PIL
resampling filter and its numeric details), comes back channels-last, and is
converted to `data_format` when one is given. -/
def transformersResize (interp : List (List ℚ) → ℕ → ℕ → List (List ℚ))
    (img : NpArr) (hh ww : ℕ) (dataFormat : Option ChannelDim) :
    Except PyErr NpArr :=
  match img with
  | .d2 _ => .error .valueError
  | .d3 p => do
      let idim ← inferChannelDim (.d3 p)
      let hwc := match idim with
        | .first => chwToHwc p
        | .last => p
      let chw := hwcToChw hwc
      let chw2 := chw.map (fun chan => interp chan hh ww)
      let outHwc := chwToHwc chw2
      match dataFormat with
      | none => .ok (.d3 outHwc)
      | some .last => .ok (.d3 outHwc)
      | some .first => .ok (.d3 (hwcToChw outHwc))

/-- `TimmImageProcessor.resize` (lines 290-324): re-validate `size`, raise
`ValueError` unless it has both `height` and `width`, broadcast 2-D
(grayscale) input to 3 channels, then delegate to the external resize with
target `(size["height"], size["width"])`.  The `resamp` argument is the
resampling filter id, absorbed by the abstract kernel. -/
def timmProcResize (interp : List (List ℚ) → ℕ → ℕ → List (List ℚ))
    (image : NpArr) (size : SizeDict) (_resamp : Option ℕ)
    (dataFormat : Option ChannelDim) : Except PyErr NpArr := do
  let sd ← getSizeDict size
  if !(sdHasKey sd "height" && sdHasKey sd "width") then .error .valueError
  else
    let img2 := match image with
      | .d2 rows => NpArr.d3 (stackGray3 rows)
      | x => x
    transformersResize interp img2 ((sdGet sd "height").getD 0)
      ((sdGet sd "width").getD 0) dataFormat

/-- One element of a `preprocess` input batch: a recognized image value, or a
value of some unrecognized type. -/
inductive ImgElem where
  | np (a : NpArr)
  | other
deriving DecidableEq, Repr

/-- Embeds the external `is_valid_image` type test. -/
def isValidImage : ImgElem → Bool
  | .np _ => true
  | .other => false

/-- Embeds the external `to_numpy_array`; `preprocess` only applies it after
the validity check, so the `other` case is never reached there and its value
is immaterial. -/
def toNumpyArr : ImgElem → NpArr
  | .np a => a
  | .other => .d2 []

/-- The instance attributes set by `TimmImageProcessor.__init__`
(lines 233-255).  `resample` and `rescale_factor` are stored exactly as
passed (the source applies no `None` fallback to them), so they can be
`None`. -/
structure ProcDefaults where
  do_resize : Bool
  do_rescale : Bool
  do_normalize : Bool
  size : SizeDict
  resample : Option ℕ
  rescale_factor : Option ℚ
  image_mean : List ℚ
  image_std : List ℚ
deriving DecidableEq, Repr

/-- `IMAGENET_STANDARD_MEAN = [0.5, 0.5, 0.5]` (external constant). -/
def IMAGENET_MEAN : List ℚ := [1/2, 1/2, 1/2]

/-- `IMAGENET_STANDARD_STD = [0.5, 0.5, 0.5]` (external constant). -/
def IMAGENET_STD : List ℚ := [1/2, 1/2, 1/2]

/-- `TimmImageProcessor.__init__` (lines 233-255): default the size to
224x224, validate it with `get_size_dict`, fall back to the ImageNet
statistics for missing mean/std. -/
def timmImageProcessorInit (do_resize : Bool) (size : Option SizeDict)
    (resample : Option ℕ) (do_rescale : Bool) (rescale_factor : Option ℚ)
    (do_normalize : Bool) (image_mean image_std : Option (List ℚ)) :
    Except PyErr ProcDefaults := do
  let sizeV ← getSizeDict (size.getD [("height", 224), ("width", 224)])
  return { do_resize := do_resize, do_rescale := do_rescale,
           do_normalize := do_normalize, size := sizeV, resample := resample,
           rescale_factor := rescale_factor,
           image_mean := image_mean.getD IMAGENET_MEAN,
           image_std := image_std.getD IMAGENET_STD }

/-- `TimmImageProcessor.preprocess` (lines 380-473) on an already-batched
input (a list; `make_list_of_images` returns list input unchanged).  Per-call
arguments default to the instance attributes; `size` is re-validated by
`get_size_dict` before anything else; an unrecognized element makes the whole
call raise `ValueError`; the `do_resize and size is None` check of line 451
is vacuous because `size` has already been defaulted to the always-set
`self.size`; the rescale-factor check of line 454 is live.  The four stages
then run in order on the whole batch, each only when its flag is set, and
the result is the list wrapped by `BatchFeature` under `pixel_values`
(tensor conversion is external and not requested here). -/
def preprocess (interp : List (List ℚ) → ℕ → ℕ → List (List ℚ))
    (self : ProcDefaults) (images : List ImgElem)
    (do_resizeA do_rescaleA do_normalizeA : Option Bool)
    (sizeA : Option SizeDict) (resampleA : Option ℕ)
    (rescale_factorA : Option ℚ) (image_meanA image_stdA : Option (List ℚ))
    (data_format : ChannelDim) : Except PyErr (List NpArr) := do
  let do_resize := do_resizeA.getD self.do_resize
  let do_rescale := do_rescaleA.getD self.do_rescale
  let do_normalize := do_normalizeA.getD self.do_normalize
  let resamp := resampleA <|> self.resample
  let rescale_factor := rescale_factorA <|> self.rescale_factor
  let image_mean := image_meanA.getD self.image_mean
  let image_std := image_stdA.getD self.image_std
  let size := sizeA.getD self.size
  let size_dict ← getSizeDict size
  if !(images.all isValidImage) then .error .valueError
  else if do_rescale && rescale_factor.isNone then .error .valueError
  else do
    let arrs0 := images.map toNumpyArr
    let arrs1 ← if do_resize then
        arrs0.mapM (fun i => timmProcResize interp i size_dict resamp none)
      else pure arrs0
    let arrs2 := if do_rescale then arrs1.map (rescaleArr (rescale_factor.getD 0))
      else arrs1
    let arrs3 ← if do_normalize then arrs2.mapM (normalizeArr image_mean image_std)
      else pure arrs2
    arrs3.mapM (toChannelDimensionFormat data_format none)

/-- Claim C5: with `do_resize`, `do_rescale` and `do_normalize` all false,
`preprocess` returns the input arrays unchanged in value, only converted to
the requested channel layout — the result does not mention the mean, std,
rescale-factor or size arguments at all (size is only validated), so the
disabled stages' parameters are never applied. -/
theorem claim_c5_disabled_stages_value_preserving
    (interp : List (List ℚ) → ℕ → ℕ → List (List ℚ)) (self : ProcDefaults)
    (images : List ImgElem) (sizeA : Option SizeDict) (resampleA : Option ℕ)
    (rescale_factorA : Option ℚ) (image_meanA image_stdA : Option (List ℚ))
    (fmt : ChannelDim)
    (hvalid : images.all isValidImage = true)
    (hsize : isValidSizeDict (sizeA.getD self.size) = true) :
    preprocess interp self images (some false) (some false) (some false)
        sizeA resampleA rescale_factorA image_meanA image_stdA fmt
      = (images.map toNumpyArr).mapM (toChannelDimensionFormat fmt none) := by
  simp [preprocess, getSizeDict, hsize, hvalid, exceptBind_ok]

/-- Witness for C5: a one-image channels-first batch with all stages
disabled comes back unchanged. -/
theorem claim_c5_disabled_stages_value_preserving_witness :
    ([ImgElem.np (.d3 [[[1, 2], [3, 4]]])].all isValidImage = true) ∧
    (isValidSizeDict ((none : Option SizeDict).getD
        (ProcDefaults.mk true true true [("height", 224), ("width", 224)]
          (some 2) (some (1/255)) IMAGENET_MEAN IMAGENET_STD).size) = true) ∧
    preprocess (fun g _ _ => g)
        (ProcDefaults.mk true true true [("height", 224), ("width", 224)]
          (some 2) (some (1/255)) IMAGENET_MEAN IMAGENET_STD)
        [ImgElem.np (.d3 [[[1, 2], [3, 4]]])]
        (some false) (some false) (some false) none none none none none .first
      = ([ImgElem.np (.d3 [[[1, 2], [3, 4]]])].map toNumpyArr).mapM
          (toChannelDimensionFormat .first none) :=
  ⟨rfl, rfl, claim_c5_disabled_stages_value_preserving _ _ _ _ _ _ _ _ _ rfl rfl⟩

/-- Claim C7: a batch containing any element that is not a recognized image
type makes `preprocess` fail with a `ValueError`; in this pure model the
call produces only that error, so no element undergoes any transformation
stage. -/
theorem claim_c7_invalid_element_rejects_batch
    (interp : List (List ℚ) → ℕ → ℕ → List (List ℚ)) (self : ProcDefaults)
    (images : List ImgElem) (do_resizeA do_rescaleA do_normalizeA : Option Bool)
    (sizeA : Option SizeDict) (resampleA : Option ℕ)
    (rescale_factorA : Option ℚ) (image_meanA image_stdA : Option (List ℚ))
    (fmt : ChannelDim)
    (hbad : ∃ e ∈ images, isValidImage e = false) :
    preprocess interp self images do_resizeA do_rescaleA do_normalizeA
        sizeA resampleA rescale_factorA image_meanA image_stdA fmt
      = .error .valueError := by
  have hall : images.all isValidImage = false := by
    rcases hbad with ⟨e, he, hf⟩
    cases hcase : images.all isValidImage
    · rfl
    · exact absurd ((List.all_eq_true.mp hcase) e he) (by simp [hf])
  by_cases hs : isValidSizeDict (sizeA.getD self.size) = true
  · simp [preprocess, getSizeDict, hs, hall, exceptBind_ok]
  · simp [preprocess, getSizeDict, hs, exceptBind_error]

/-- Witness for C7: a two-element batch whose second element is an
unrecognized value is rejected whole. -/
theorem claim_c7_invalid_element_rejects_batch_witness :
    (∃ e ∈ [ImgElem.np (.d3 [[[1]]]), ImgElem.other], isValidImage e = false) ∧
    preprocess (fun g _ _ => g)
        (ProcDefaults.mk true true true [("height", 224), ("width", 224)]
          (some 2) (some (1/255)) IMAGENET_MEAN IMAGENET_STD)
        [ImgElem.np (.d3 [[[1]]]), ImgElem.other]
        none none none none none none none none .first
      = .error .valueError :=
  ⟨⟨ImgElem.other, by simp, rfl⟩,
    claim_c7_invalid_element_rejects_batch _ _ _ _ _ _ _ _ _ _ _ _
      ⟨ImgElem.other, by simp, rfl⟩⟩

theorem getD_replicate_lt {α : Type} (a d : α) (n j : ℕ) (hj : j < n) :
    (List.replicate n a).getD j d = a := by
  simp [List.getD_eq_getElem?_getD, List.getElem?_replicate, hj]

/-- Transposing a list of constant (`replicate`) rows stacks the generating
list: the nested-list form of `(l.map (replicate n)).T = replicate n l`,
for non-empty `l`. -/
theorem npTranspose_map_replicate {α : Type} (d : α) (n : ℕ) (l : List α)
    (hl : l ≠ []) :
    npTranspose d (l.map (fun y => List.replicate n y)) = List.replicate n l := by
  rcases l with _ | ⟨x, xs⟩
  · exact absurd rfl hl
  · apply List.ext_getElem
    · simp [npTranspose]
    · intro i hi1 hi2
      have hin : i < n := by simpa using hi2
      simp only [npTranspose, List.map_cons, List.headD_cons, List.length_replicate,
        List.getElem_map, List.getElem_range, List.getElem_replicate, List.map_map]
      have hpt : ∀ y ∈ xs,
          ((fun (r : List α) => r.getD i d) ∘ fun y => List.replicate n y) y = y := by
        intro y _
        exact getD_replicate_lt y d n i hin
      congr 1
      · exact getD_replicate_lt x d n i hin
      · rw [List.map_congr_left hpt]
        simp

/-- Transposing `replicate n l` (with `n` positive) yields the constant
rows `l.map (replicate n)`. -/
theorem npTranspose_replicate {α : Type} (d : α) (n : ℕ) (hn : 0 < n)
    (l : List α) :
    npTranspose d (List.replicate n l) = l.map (fun y => List.replicate n y) := by
  rcases n with _ | m
  · exact absurd hn (by simp)
  · apply List.ext_getElem
    · simp [npTranspose, List.replicate_succ]
    · intro i hi1 hi2
      have hi : i < l.length := by simpa using hi2
      simp only [npTranspose, List.replicate_succ, List.headD_cons, List.getElem_map,
        List.getElem_range, List.map_cons, List.map_replicate]
      rw [List.getD_eq_getElem?_getD, List.getElem?_eq_getElem hi]
      simp [List.replicate_succ]

/-- `g` is a rectangular `r` by `c` nested list. -/
def rect2 (g : List (List ℚ)) (r c : ℕ) : Prop :=
  g.length = r ∧ ∀ row ∈ g, row.length = c

instance rect2Dec (g : List (List ℚ)) (r c : ℕ) : Decidable (rect2 g r c) := by
  unfold rect2
  infer_instance

/-- `p` is a rectangular `a` by `b` by `c` nested list. -/
def rect3 (p : List (List (List ℚ))) (a b c : ℕ) : Prop :=
  p.length = a ∧ ∀ q ∈ p, rect2 q b c

/-- In a channels-last array, all channels are identical: every pixel is a
constant 3-element vector. -/
def chansIdentLast (p : List (List (List ℚ))) : Prop :=
  ∀ row ∈ p, ∀ pix ∈ row, ∃ x, pix = List.replicate 3 x

theorem hwcToChw_stackGray3 (rows : List (List ℚ)) (hne : rows ≠ [])
    (hrow : ∀ r ∈ rows, r ≠ []) :
    hwcToChw (stackGray3 rows) = List.replicate 3 rows := by
  unfold hwcToChw stackGray3
  rw [List.map_map]
  have hcong : List.map (npTranspose (0 : ℚ) ∘ fun r =>
        List.map (fun x => List.replicate 3 x) r) rows
      = List.map (fun r => List.replicate 3 r) rows :=
    List.map_congr_left (fun r hr => npTranspose_map_replicate 0 3 r (hrow r hr))
  rw [hcong]
  exact npTranspose_map_replicate [] 3 rows hne

theorem chwToHwc_replicate3 (g : List (List ℚ)) :
    chwToHwc (List.replicate 3 g) = stackGray3 g := by
  unfold chwToHwc stackGray3
  rw [npTranspose_replicate [] 3 (by norm_num) g, List.map_map]
  exact List.map_congr_left (fun r _ => npTranspose_replicate (0 : ℚ) 3 (by norm_num) r)

theorem rect3_stackGray3 (g : List (List ℚ)) (a b : ℕ) (hg : rect2 g a b) :
    rect3 (stackGray3 g) a b 3 := by
  refine ⟨by simpa [stackGray3] using hg.1, ?_⟩
  intro q hq
  rcases List.mem_map.mp hq with ⟨r, hr, rfl⟩
  refine ⟨by simpa using hg.2 r hr, ?_⟩
  intro row hrow
  rcases List.mem_map.mp hrow with ⟨x, _, rfl⟩
  simp

theorem chansIdentLast_stackGray3 (g : List (List ℚ)) :
    chansIdentLast (stackGray3 g) := by
  intro row hrow pix hpix
  rcases List.mem_map.mp hrow with ⟨r, _, rfl⟩
  rcases List.mem_map.mp hpix with ⟨x, _, rfl⟩
  exact ⟨x, rfl⟩

theorem rect3_replicate3 (g : List (List ℚ)) (a b : ℕ) (hg : rect2 g a b) :
    rect3 (List.replicate 3 g) 3 a b := by
  refine ⟨by simp, ?_⟩
  intro q hq
  rw [List.eq_of_mem_replicate hq]
  exact hg

theorem inferChannelDim_stackGray3 (rows : List (List ℚ)) (hne : rows ≠ [])
    (hrow : ∀ r ∈ rows, r ≠ []) (h1 : rows.length ≠ 1) (h3 : rows.length ≠ 3) :
    inferChannelDim (.d3 (stackGray3 rows)) = .ok .last := by
  have hl : (stackGray3 rows).length = rows.length := by simp [stackGray3]
  have hil : innerLen3 (stackGray3 rows) = 3 := by
    rcases rows with _ | ⟨r0, rest⟩
    · exact absurd rfl hne
    · rcases hr0 : r0 with _ | ⟨x0, xs0⟩
      · exact absurd hr0 (hrow r0 (by simp))
      · subst hr0
        rfl
  simp [inferChannelDim, hl, hil, h1, h3]

theorem timmProcResize_gray_eval_last
    (interp : List (List ℚ) → ℕ → ℕ → List (List ℚ))
    (rows : List (List ℚ)) (H2 W2 : ℕ) (rs : Option ℕ)
    (hne : rows ≠ []) (hrow : ∀ r ∈ rows, r ≠ [])
    (h1 : rows.length ≠ 1) (h3 : rows.length ≠ 3) :
    timmProcResize interp (.d2 rows) [("height", H2), ("width", W2)] rs (some .last)
      = .ok (.d3 (stackGray3 (interp rows H2 W2))) := by
  have hstep : timmProcResize interp (.d2 rows) [("height", H2), ("width", W2)]
        rs (some .last)
      = transformersResize interp (.d3 (stackGray3 rows)) H2 W2 (some .last) := rfl
  rw [hstep]
  simp only [transformersResize, inferChannelDim_stackGray3 rows hne hrow h1 h3,
    exceptBind_ok, hwcToChw_stackGray3 rows hne hrow, List.map_replicate,
    chwToHwc_replicate3]

theorem timmProcResize_gray_eval_first
    (interp : List (List ℚ) → ℕ → ℕ → List (List ℚ))
    (rows : List (List ℚ)) (H2 W2 : ℕ) (rs : Option ℕ)
    (hne : rows ≠ []) (hrow : ∀ r ∈ rows, r ≠ [])
    (h1 : rows.length ≠ 1) (h3 : rows.length ≠ 3) :
    timmProcResize interp (.d2 rows) [("height", H2), ("width", W2)] rs (some .first)
      = .ok (.d3 (hwcToChw (stackGray3 (interp rows H2 W2)))) := by
  have hstep : timmProcResize interp (.d2 rows) [("height", H2), ("width", W2)]
        rs (some .first)
      = transformersResize interp (.d3 (stackGray3 rows)) H2 W2 (some .first) := rfl
  rw [hstep]
  simp only [transformersResize, inferChannelDim_stackGray3 rows hne hrow h1 h3,
    exceptBind_ok, hwcToChw_stackGray3 rows hne hrow, List.map_replicate,
    chwToHwc_replicate3]

/-- Claim C6, amended: broadcasting a 2-D grayscale image to 3 channels
stacks the pixel axis last, so the external layout inference sees shape
`(H, W, 3)`; when `H` is itself 1 or 3 the inference misreads the row axis
as the channel axis (forced by the counterexample), so the claim holds for
`H ∉ {1, 3}` (with `H, W, H2, W2 ≥ 1`): the result is a 3-channel
`(H2, W2, 3)` or `(3, H2, W2)` array according to the requested layout with
all three channels identical; and for every size dictionary lacking the key
`height` or the key `width`, resize fails with a `ValueError`.  The
interpolation kernel is only assumed to produce an `H2` by `W2` grid. -/
theorem claim_c6_grayscale_resize_amended
    (interp : List (List ℚ) → ℕ → ℕ → List (List ℚ))
    (rows : List (List ℚ)) (H2 W2 : ℕ) (rs : Option ℕ)
    (hne : rows ≠ []) (hrow : ∀ r ∈ rows, r ≠ [])
    (h1 : rows.length ≠ 1) (h3 : rows.length ≠ 3)
    (hH2 : 0 < H2) (hW2 : 0 < W2)
    (hinterp : rect2 (interp rows H2 W2) H2 W2) :
    (timmProcResize interp (.d2 rows) [("height", H2), ("width", W2)] rs (some .last)
        = .ok (.d3 (stackGray3 (interp rows H2 W2))) ∧
      rect3 (stackGray3 (interp rows H2 W2)) H2 W2 3 ∧
      chansIdentLast (stackGray3 (interp rows H2 W2))) ∧
    (timmProcResize interp (.d2 rows) [("height", H2), ("width", W2)] rs (some .first)
        = .ok (.d3 (List.replicate 3 (interp rows H2 W2))) ∧
      rect3 (List.replicate 3 (interp rows H2 W2)) 3 H2 W2 ∧
      List.replicate 3 (interp rows H2 W2)
        = [interp rows H2 W2, interp rows H2 W2, interp rows H2 W2]) ∧
    ∀ (sd : SizeDict) (img : NpArr) (df : Option ChannelDim),
      (sdHasKey sd "height" && sdHasKey sd "width") = false →
      timmProcResize interp img sd rs df = .error .valueError := by
  have hgne : interp rows H2 W2 ≠ [] :=
    List.length_pos.mp (by rw [hinterp.1]; exact hH2)
  have hgrow : ∀ r ∈ interp rows H2 W2, r ≠ [] := fun r hr =>
    List.length_pos.mp (by rw [hinterp.2 r hr]; exact hW2)
  refine ⟨⟨?_, ?_, ?_⟩, ⟨?_, ?_, ?_⟩, ?_⟩
  · exact timmProcResize_gray_eval_last interp rows H2 W2 rs hne hrow h1 h3
  · exact rect3_stackGray3 _ _ _ hinterp
  · exact chansIdentLast_stackGray3 _
  · rw [timmProcResize_gray_eval_first interp rows H2 W2 rs hne hrow h1 h3,
      hwcToChw_stackGray3 _ hgne hgrow]
  · exact rect3_replicate3 _ _ _ hinterp
  · rfl
  · intro sd img df hkeys
    unfold timmProcResize
    by_cases hv : isValidSizeDict sd = true
    · rw [show getSizeDict sd = .ok sd from by unfold getSizeDict; rw [if_pos hv]]
      rw [exceptBind_ok]
      have hcond : (!(sdHasKey sd "height" && sdHasKey sd "width")) = true := by
        rw [hkeys]
        rfl
      rw [if_pos hcond]
    · rw [show getSizeDict sd = .error .valueError from by
        unfold getSizeDict; rw [if_neg hv]]
      rfl

/-- A concrete interpolation kernel for evaluating the resize path: fill the
target grid with the source's top-left value (a nearest-neighbour-style
resize to any size). -/
def cornerInterp (g : List (List ℚ)) (hh ww : ℕ) : List (List ℚ) :=
  List.replicate hh (List.replicate ww ((g.headD []).headD 0))

/-- Counterexample to C6 as stated: the 3x1 grayscale image
`[[1], [2], [3]]` has `H = 3`, so after the 3-channel broadcast the layout
inference mistakes the row axis for the channel axis; resizing to 1x1 in
channels-last layout returns the pixel `[1, 2, 3]`, whose three channels
are not identical. -/
theorem claim_c6_counterexample :
    timmProcResize cornerInterp (.d2 [[1], [2], [3]])
        [("height", 1), ("width", 1)] none (some .last)
      = .ok (.d3 [[[1, 2, 3]]]) ∧
    ¬ chansIdentLast [[[1, 2, 3]]] := by
  constructor
  · rfl
  · intro hid
    rcases hid [[1, 2, 3]] (by simp) [1, 2, 3] (by simp) with ⟨x, hx⟩
    simp [List.replicate] at hx
    rcases hx with ⟨hx1, hx2, _⟩
    rw [← hx1] at hx2
    norm_num at hx2

/-- Witness for the amended C6 at the 2x1 grayscale image `[[5], [6]]`
resized to 1x1 with the corner kernel. -/
theorem claim_c6_grayscale_resize_amended_witness :
    (([[5], [6]] : List (List ℚ)) ≠ [] ∧
      (∀ r ∈ ([[5], [6]] : List (List ℚ)), r ≠ []) ∧
      ([[5], [6]] : List (List ℚ)).length ≠ 1 ∧
      ([[5], [6]] : List (List ℚ)).length ≠ 3 ∧
      (0 : ℕ) < 1 ∧
      rect2 (cornerInterp [[5], [6]] 1 1) 1 1) ∧
    ((timmProcResize cornerInterp (.d2 [[5], [6]])
          [("height", 1), ("width", 1)] none (some .last)
        = .ok (.d3 (stackGray3 (cornerInterp [[5], [6]] 1 1))) ∧
      rect3 (stackGray3 (cornerInterp [[5], [6]] 1 1)) 1 1 3 ∧
      chansIdentLast (stackGray3 (cornerInterp [[5], [6]] 1 1))) ∧
     (timmProcResize cornerInterp (.d2 [[5], [6]])
          [("height", 1), ("width", 1)] none (some .first)
        = .ok (.d3 (List.replicate 3 (cornerInterp [[5], [6]] 1 1))) ∧
      rect3 (List.replicate 3 (cornerInterp [[5], [6]] 1 1)) 3 1 1 ∧
      List.replicate 3 (cornerInterp [[5], [6]] 1 1)
        = [cornerInterp [[5], [6]] 1 1, cornerInterp [[5], [6]] 1 1,
            cornerInterp [[5], [6]] 1 1]) ∧
     ∀ (sd : SizeDict) (img : NpArr) (df : Option ChannelDim),
       (sdHasKey sd "height" && sdHasKey sd "width") = false →
       timmProcResize cornerInterp img sd none df = .error .valueError) :=
  ⟨⟨by decide, by decide, by decide, by decide, by decide, by decide⟩,
    claim_c6_grayscale_resize_amended cornerInterp [[5], [6]] 1 1 none
      (by decide) (by decide) (by decide) (by decide) (by decide) (by decide)
      (by decide)⟩

/-- Modelled from the spec: `DummyObject` and `requires_backends` live in
`optimum/intel/utils/import_utils.py`, which is not under `src/`.  Per the
spec, construction or `from_pretrained` on a pipeline placeholder
"immediately fails with a dependency-missing error naming the two required
optional dependencies" when a named optional dependency is absent, with no
computation or partial construction.  `available` is the set of importable
backends in the environment. -/
def requiresBackends (required : List String) (available : List String) :
    Except PyErr Unit :=
  if required.all (fun b => available.contains b) then .ok ()
  else .error (.missingBackends required)

/-- The `_backends` list shared by all five placeholder pipeline classes in
`dummy_openvino_and_diffusers_objects.py`. -/
def ovDiffusersBackends : List String := ["openvino", "diffusers"]

/-- `OVStableDiffusionPipeline.__init__` (lines 21-22). -/
def OVStableDiffusionPipelineInit (available : List String) : Except PyErr Unit :=
  requiresBackends ovDiffusersBackends available

/-- `OVStableDiffusionPipeline.from_pretrained` (lines 24-26). -/
def OVStableDiffusionPipelineFromPretrained (available : List String) :
    Except PyErr Unit :=
  requiresBackends ovDiffusersBackends available

/-- `OVStableDiffusionImg2ImgPipeline.__init__` (lines 32-33). -/
def OVStableDiffusionImg2ImgPipelineInit (available : List String) :
    Except PyErr Unit :=
  requiresBackends ovDiffusersBackends available

/-- `OVStableDiffusionImg2ImgPipeline.from_pretrained` (lines 35-37). -/
def OVStableDiffusionImg2ImgPipelineFromPretrained (available : List String) :
    Except PyErr Unit :=
  requiresBackends ovDiffusersBackends available

/-- `OVStableDiffusionInpaintPipeline.__init__` (lines 43-44). -/
def OVStableDiffusionInpaintPipelineInit (available : List String) :
    Except PyErr Unit :=
  requiresBackends ovDiffusersBackends available

/-- `OVStableDiffusionInpaintPipeline.from_pretrained` (lines 46-48). -/
def OVStableDiffusionInpaintPipelineFromPretrained (available : List String) :
    Except PyErr Unit :=
  requiresBackends ovDiffusersBackends available

/-- `OVStableDiffusionXLPipeline.__init__` (lines 54-55). -/
def OVStableDiffusionXLPipelineInit (available : List String) :
    Except PyErr Unit :=
  requiresBackends ovDiffusersBackends available

/-- `OVStableDiffusionXLPipeline.from_pretrained` (lines 57-59). -/
def OVStableDiffusionXLPipelineFromPretrained (available : List String) :
    Except PyErr Unit :=
  requiresBackends ovDiffusersBackends available

/-- `OVStableDiffusionXLImg2ImgPipeline.__init__` (lines 65-66). -/
def OVStableDiffusionXLImg2ImgPipelineInit (available : List String) :
    Except PyErr Unit :=
  requiresBackends ovDiffusersBackends available

/-- `OVStableDiffusionXLImg2ImgPipeline.from_pretrained` (lines 68-70). -/
def OVStableDiffusionXLImg2ImgPipelineFromPretrained (available : List String) :
    Except PyErr Unit :=
  requiresBackends ovDiffusersBackends available

/-- Claim C9 (spec-modelled `requires_backends`): whenever `openvino` or
`diffusers` is unavailable, the constructor and the `from_pretrained`
factory of each of the five placeholder pipeline classes fail immediately
with a dependency-missing error naming the two required optional
dependencies, producing nothing else. -/
theorem claim_c9_dummy_pipelines_raise (available : List String)
    (habs : ¬("openvino" ∈ available ∧ "diffusers" ∈ available)) :
    OVStableDiffusionPipelineInit available
        = .error (.missingBackends ["openvino", "diffusers"]) ∧
    OVStableDiffusionPipelineFromPretrained available
        = .error (.missingBackends ["openvino", "diffusers"]) ∧
    OVStableDiffusionImg2ImgPipelineInit available
        = .error (.missingBackends ["openvino", "diffusers"]) ∧
    OVStableDiffusionImg2ImgPipelineFromPretrained available
        = .error (.missingBackends ["openvino", "diffusers"]) ∧
    OVStableDiffusionInpaintPipelineInit available
        = .error (.missingBackends ["openvino", "diffusers"]) ∧
    OVStableDiffusionInpaintPipelineFromPretrained available
        = .error (.missingBackends ["openvino", "diffusers"]) ∧
    OVStableDiffusionXLPipelineInit available
        = .error (.missingBackends ["openvino", "diffusers"]) ∧
    OVStableDiffusionXLPipelineFromPretrained available
        = .error (.missingBackends ["openvino", "diffusers"]) ∧
    OVStableDiffusionXLImg2ImgPipelineInit available
        = .error (.missingBackends ["openvino", "diffusers"]) ∧
    OVStableDiffusionXLImg2ImgPipelineFromPretrained available
        = .error (.missingBackends ["openvino", "diffusers"]) := by
  have hfail : requiresBackends ovDiffusersBackends available
      = .error (.missingBackends ["openvino", "diffusers"]) := by
    unfold requiresBackends ovDiffusersBackends
    rw [if_neg]
    intro hall
    apply habs
    have h := List.all_eq_true.mp hall
    constructor
    · simpa using h "openvino" (by simp)
    · simpa using h "diffusers" (by simp)
  exact ⟨hfail, hfail, hfail, hfail, hfail, hfail, hfail, hfail, hfail, hfail⟩

/-- Witness for C9 in the empty environment (no backend importable). -/
theorem claim_c9_dummy_pipelines_raise_witness :
    (¬("openvino" ∈ ([] : List String) ∧ "diffusers" ∈ ([] : List String))) ∧
    OVStableDiffusionPipelineInit []
        = .error (.missingBackends ["openvino", "diffusers"]) ∧
    OVStableDiffusionPipelineFromPretrained []
        = .error (.missingBackends ["openvino", "diffusers"]) :=
  ⟨by decide, (claim_c9_dummy_pipelines_raise [] (by decide)).1,
    (claim_c9_dummy_pipelines_raise [] (by decide)).2.1⟩

/-- The image-processor config dictionary built by
`TimmImageProcessor.from_pretrained` (lines 263-286), field for field.
`size`/`crop_size` height and width keep the registry's `PVal` values. -/
structure ImgProcCfg where
  crop_size_height : PVal
  crop_size_width : PVal
  do_center_crop : Bool
  do_normalize : Bool
  do_reduce_labels : Bool
  do_rescale : Bool
  do_resize : Bool
  image_mean : PVal
  image_std : PVal
  resample : ℤ
  rescale_factor : ℚ
  size_height : PVal
  size_width : PVal

/-- `IMAGENET_STANDARD_MEAN` as the registry-level fallback value. -/
def IMAGENET_MEAN_PV : PVal := .pyList [.pyRat (1/2), .pyRat (1/2), .pyRat (1/2)]

/-- `IMAGENET_STANDARD_STD` as the registry-level fallback value. -/
def IMAGENET_STD_PV : PVal := .pyList [.pyRat (1/2), .pyRat (1/2), .pyRat (1/2)]

/-- `timm_config_dict.get('crop_mode') == 'center'` (line 272). -/
def isCenterCrop : Option PVal → Bool
  | some (.pyStr s) => s == "center"
  | _ => false

/-- `TimmImageProcessor.from_pretrained` (lines 257-288).  The tuple
unpacking `_, im_h, im_w = timm_config_dict.get('input_size', [3, 224, 224])`
succeeds exactly on 3-element sequences — any other list length raises
`ValueError`, a non-sequence raises `TypeError`.  The trailing
`cls.from_dict(...)` is the external generic constructor; the dictionary is
the object of the claim. -/
def timmImageProcessorFromPretrained (registry : PyDict) :
    Except PyErr ImgProcCfg :=
  match (dictGet registry "input_size").getD
      (.pyList [.pyInt 3, .pyInt 224, .pyInt 224]) with
  | .pyList [_, h, w] =>
      .ok { crop_size_height := h, crop_size_width := w,
            do_center_crop := isCenterCrop (dictGet registry "crop_mode"),
            do_normalize := true, do_reduce_labels := false,
            do_rescale := true, do_resize := true,
            image_mean := (dictGet registry "mean").getD IMAGENET_MEAN_PV,
            image_std := (dictGet registry "std").getD IMAGENET_STD_PV,
            resample := 3,
            rescale_factor := 0.00392156862745098,
            size_height := h, size_width := w }
  | .pyList _ => .error .valueError
  | _ => .error .typeError

/-- Rounding to the IEEE double-precision grid of the binade
`[2^-8, 2^-7)`, whose unit in the last place is `2^-60`: two rationals in
that binade denote the same double exactly when these integers agree.  Both
`1/255` and the source literal `0.00392156862745098` lie in that binade. -/
def roundBinade8 (q : ℚ) : ℤ := ⌊q * 2 ^ 60 + 1 / 2⌋

/-- Claim C10: for every registry mapping whose `input_size` is absent or a
3-element list, `TimmImageProcessor.from_pretrained` builds a processor
config with `do_resize`, `do_rescale`, `do_normalize` all true; the
rescale factor is the literal `0.00392156862745098` — the decimal spelling
of the double `1/255`, to which it rounds identically — regardless of the
registry; `size` and `crop_size` take the registry's `input_size` height
and width, falling back to 224x224 when `input_size` is absent; and
`image_mean`/`image_std` fall back to the ImageNet statistics when the
registry omits `mean`/`std`. -/
theorem claim_c10_processor_factory (registry : PyDict)
    (hisz : dictGet registry "input_size" = none ∨
      ∃ c h w, dictGet registry "input_size" = some (.pyList [c, h, w])) :
    ∃ cfg, timmImageProcessorFromPretrained registry = .ok cfg ∧
      cfg.do_resize = true ∧ cfg.do_rescale = true ∧ cfg.do_normalize = true ∧
      cfg.rescale_factor = 0.00392156862745098 ∧
      roundBinade8 cfg.rescale_factor = roundBinade8 (1 / 255) ∧
      (dictGet registry "input_size" = none →
        cfg.size_height = .pyInt 224 ∧ cfg.size_width = .pyInt 224 ∧
        cfg.crop_size_height = .pyInt 224 ∧ cfg.crop_size_width = .pyInt 224) ∧
      (∀ c h w, dictGet registry "input_size" = some (.pyList [c, h, w]) →
        cfg.size_height = h ∧ cfg.size_width = w ∧
        cfg.crop_size_height = h ∧ cfg.crop_size_width = w) ∧
      (dictGet registry "mean" = none → cfg.image_mean = IMAGENET_MEAN_PV) ∧
      (dictGet registry "std" = none → cfg.image_std = IMAGENET_STD_PV) := by
  have hround : roundBinade8 (0.00392156862745098 : ℚ) = roundBinade8 (1 / 255) := by
    unfold roundBinade8
    norm_num
  rcases hisz with hnone | ⟨c, h, w, hsome⟩
  · have heval : timmImageProcessorFromPretrained registry = .ok
        { crop_size_height := .pyInt 224, crop_size_width := .pyInt 224,
          do_center_crop := isCenterCrop (dictGet registry "crop_mode"),
          do_normalize := true, do_reduce_labels := false,
          do_rescale := true, do_resize := true,
          image_mean := (dictGet registry "mean").getD IMAGENET_MEAN_PV,
          image_std := (dictGet registry "std").getD IMAGENET_STD_PV,
          resample := 3, rescale_factor := 0.00392156862745098,
          size_height := .pyInt 224, size_width := .pyInt 224 } := by
      unfold timmImageProcessorFromPretrained
      rw [hnone]
      rfl
    refine ⟨_, heval, rfl, rfl, rfl, rfl, hround, ?_, ?_, ?_, ?_⟩
    · intro _
      exact ⟨rfl, rfl, rfl, rfl⟩
    · intro c h w hc
      rw [hnone] at hc
      cases hc
    · intro hm
      show (dictGet registry "mean").getD IMAGENET_MEAN_PV = IMAGENET_MEAN_PV
      rw [hm]
      rfl
    · intro hs
      show (dictGet registry "std").getD IMAGENET_STD_PV = IMAGENET_STD_PV
      rw [hs]
      rfl
  · have heval : timmImageProcessorFromPretrained registry = .ok
        { crop_size_height := h, crop_size_width := w,
          do_center_crop := isCenterCrop (dictGet registry "crop_mode"),
          do_normalize := true, do_reduce_labels := false,
          do_rescale := true, do_resize := true,
          image_mean := (dictGet registry "mean").getD IMAGENET_MEAN_PV,
          image_std := (dictGet registry "std").getD IMAGENET_STD_PV,
          resample := 3, rescale_factor := 0.00392156862745098,
          size_height := h, size_width := w } := by
      unfold timmImageProcessorFromPretrained
      rw [hsome]
      rfl
    refine ⟨_, heval, rfl, rfl, rfl, rfl, hround, ?_, ?_, ?_, ?_⟩
    · intro hn
      rw [hsome] at hn
      cases hn
    · intro c' h' w' hc
      rw [hsome] at hc
      cases hc
      exact ⟨rfl, rfl, rfl, rfl⟩
    · intro hm
      show (dictGet registry "mean").getD IMAGENET_MEAN_PV = IMAGENET_MEAN_PV
      rw [hm]
      rfl
    · intro hs
      show (dictGet registry "std").getD IMAGENET_STD_PV = IMAGENET_STD_PV
      rw [hs]
      rfl

/-- Witness for C10 on the empty registry mapping: every fallback fires. -/
theorem claim_c10_processor_factory_witness :
    (dictGet [] "input_size" = none ∨
      ∃ c h w, dictGet [] "input_size" = some (.pyList [c, h, w])) ∧
    ∃ cfg, timmImageProcessorFromPretrained [] = .ok cfg ∧
      cfg.do_resize = true ∧ cfg.do_rescale = true ∧ cfg.do_normalize = true ∧
      cfg.rescale_factor = 0.00392156862745098 ∧
      roundBinade8 cfg.rescale_factor = roundBinade8 (1 / 255) ∧
      (dictGet [] "input_size" = none →
        cfg.size_height = .pyInt 224 ∧ cfg.size_width = .pyInt 224 ∧
        cfg.crop_size_height = .pyInt 224 ∧ cfg.crop_size_width = .pyInt 224) ∧
      (∀ c h w, dictGet [] "input_size" = some (.pyList [c, h, w]) →
        cfg.size_height = h ∧ cfg.size_width = w ∧
        cfg.crop_size_height = h ∧ cfg.crop_size_width = w) ∧
      (dictGet [] "mean" = none → cfg.image_mean = IMAGENET_MEAN_PV) ∧
      (dictGet [] "std" = none → cfg.image_std = IMAGENET_STD_PV) :=
  ⟨Or.inl rfl, claim_c10_processor_factory [] (Or.inl rfl)⟩
